import Mathlib

/-!
Verification of the self-update subsystem of the polymarket-cli repository
(src/commands/upgrade.rs), as a shallow embedding in Lean 4.

External effects (shelling out to curl, mktemp, tar, shasum, sudo mv, and
filesystem renames) are modelled as oracle fields of an environment record;
the pure control flow and string processing of the Rust code are translated
function by function.  Filesystem mutations performed by the installer are
modelled on a small record holding the contents at the live executable path,
the backup path, and the scratch binary path.
-/

deriving instance DecidableEq for Except

namespace Upgrade

/-- The repository constant `REPO` from upgrade.rs. -/
def REPO : String := "polymarket/polymarket-cli"

/-- The repository constant `BINARY` from upgrade.rs. -/
def BINARY : String := "polymarket"

/-- Helper for `split_whitespace`: accumulates the current word (reversed)
and splits the character list on whitespace, skipping empty fields, exactly
as Rust `str::split_whitespace` behaves on ASCII text. -/
def splitWSAux : List Char → List Char → List (List Char)
  | [], acc => if acc.isEmpty then [] else [acc.reverse]
  | c :: cs, acc =>
    if c.isWhitespace then
      if acc.isEmpty then splitWSAux cs []
      else acc.reverse :: splitWSAux cs []
    else splitWSAux cs (c :: acc)

/-- Model of Rust `str::split_whitespace` (restricted to ASCII whitespace):
the list of maximal nonempty runs of non-whitespace characters. -/
def split_whitespace (s : String) : List String :=
  (splitWSAux s.data []).map String.mk

/-- Strips one trailing carriage return, as Rust `str::lines` does to each
line split at a line feed. -/
def stripTrailingCR (l : List Char) : List Char :=
  match l.reverse with
  | '\r' :: rest => rest.reverse
  | _ => l

/-- Helper for `rustLines`: splits a character list at line feeds, dropping
one trailing carriage return per line, with no empty final line when the
input ends in a line feed. -/
def linesAux : List Char → List Char → List (List Char)
  | [], acc => if acc.isEmpty then [] else [stripTrailingCR acc.reverse]
  | '\n' :: cs, acc => stripTrailingCR acc.reverse :: linesAux cs []
  | c :: cs, acc => linesAux cs (c :: acc)

/-- Model of Rust `str::lines`. -/
def rustLines (s : String) : List String :=
  (linesAux s.data []).map String.mk

/-- Model of Rust `str::trim_start_matches('v')`: removes every leading
occurrence of the character `v`. -/
def stripV (s : String) : String :=
  String.mk (s.data.dropWhile (fun c => c = 'v'))

/-- Helper for `stripDotSlash`: removes every leading occurrence of the
two-character pattern `./` from a character list. -/
def stripDotSlashL : List Char → List Char
  | '.' :: '/' :: rest => stripDotSlashL rest
  | l => l

/-- Model of Rust `str::trim_start_matches("./")` as used on manifest
filenames: removes every leading occurrence of `./`. -/
def stripDotSlash (s : String) : String :=
  String.mk (stripDotSlashL s.data)

/-- One iteration of the `find_map` closure in `verify_checksum`
(upgrade.rs lines 155-164): split the line on whitespace, take the first
field as the hash and the second as the filename, and report the hash when
the filename matches the expected name exactly or after stripping a leading
`./`.  A line with fewer than two fields yields `none`. -/
def lineMatch (expected_name : String) (line : String) : Option String :=
  match split_whitespace line with
  | hash :: name :: _ =>
    if name = expected_name ∨ stripDotSlash name = expected_name then some hash
    else none
  | _ => none

/-- The manifest lookup of `verify_checksum` (upgrade.rs lines 153-164):
the hash field of the first line whose filename field matches. -/
def findExpectedHash (checksums expected_name : String) : Option String :=
  (rustLines checksums).findSome? (lineMatch expected_name)

/-- The checksum-mismatch failure message built by the `bail!` at
upgrade.rs lines 186-188. -/
def mismatchMsg (expected_hash actual_hash : String) : String :=
  "Checksum mismatch!\n  Expected: " ++ expected_hash ++ "\n  Got:      " ++
    actual_hash ++
    "\n\nThe downloaded binary may have been tampered with. Aborting."

/-- The missing-manifest-entry failure message built by the `context` at
upgrade.rs lines 165-167. -/
def missingMsg (expected_name : String) : String :=
  "No checksum found for " ++ expected_name ++ " in checksums.txt"

/-- Outcome of the external SHA-256 command (`shasum -a 256` with
`sha256sum` fallback): the command pair may fail to run, run with a
non-success status, or produce stdout text. -/
inductive ShaOutcome where
  | toolMissing : ShaOutcome
  | runFailed : ShaOutcome
  | ran : String → ShaOutcome
deriving DecidableEq, Repr

/-- Model of `verify_checksum` (upgrade.rs lines 146-193).  The file read
of checksums.txt is the `checksumsText` oracle (`none` models a read
failure) and the external hash command is the `sha` oracle; the lookup,
field extraction and comparison are translated from the source.  The
comparison at line 185 is exact string inequality. -/
def verify_checksum (checksumsText : Option String) (sha : ShaOutcome)
    (expected_name : String) : Except String Unit :=
  match checksumsText with
  | none => .error "Failed to read checksums.txt"
  | some checksums =>
    match findExpectedHash checksums expected_name with
    | none => .error (missingMsg expected_name)
    | some expected_hash =>
      match sha with
      | .toolMissing => .error "Failed to compute SHA256 (need shasum or sha256sum)"
      | .runFailed => .error "Failed to compute SHA256 of downloaded file"
      | .ran stdout =>
        let actual_hash := (split_whitespace stdout).headD ""
        if actual_hash ≠ expected_hash then
          .error (mismatchMsg expected_hash actual_hash)
        else .ok ()

/-- Model of `detect_target` (upgrade.rs lines 122-133), with the ambient
`std::env::consts::OS` and `ARCH` made explicit arguments: a pure match on
the pair. -/
def detect_target (os arch : String) : Except String String :=
  match os, arch with
  | "macos", "x86_64" => .ok "x86_64-apple-darwin"
  | "macos", "aarch64" => .ok "aarch64-apple-darwin"
  | "linux", "x86_64" => .ok "x86_64-unknown-linux-gnu"
  | "linux", "aarch64" => .ok "aarch64-unknown-linux-gnu"
  | os, arch => .error ("Unsupported platform: " ++ os ++ "/" ++ arch)

/-- Error kind of a failed direct `fs::rename`, used to distinguish a
permission failure from any other failure (the Rust code itself never
inspects the kind: `or_else(|_| sudo_mv(..))` fires on every kind). -/
inductive MvErr where
  | permission : MvErr
  | notFound : MvErr
  | other : MvErr
deriving DecidableEq, Repr

/-- Contents of the three filesystem locations the installer touches:
the live executable path, the backup path (`live + ".bak"`), and the
extracted new binary in the scratch directory.  `none` means the path
does not exist; `some c` means it holds a file with content `c`. -/
structure FS where
  live : Option String
  backup : Option String
  newbin : Option String
deriving DecidableEq, Repr

/-- Oracle outcomes for the installer phase (upgrade.rs lines 75-93):
each field says whether the corresponding external operation succeeds.
A failed rename carries its error kind. -/
structure InstallEnv where
  rename1 : Option MvErr
  sudo1Ok : Bool
  rename2 : Option MvErr
  sudo2Ok : Bool
  rollbackOk : Bool
  removeBackupOk : Bool
deriving DecidableEq, Repr

/-- Observable operations performed by the installer phase, each recording
whether it succeeded. -/
inductive IOp where
  | rename1 : Bool → IOp
  | sudo1 : Bool → IOp
  | rename2 : Bool → IOp
  | sudo2 : Bool → IOp
  | rollback : Bool → IOp
  | setPerm : IOp
  | rmBackup : Bool → IOp
deriving DecidableEq, Repr

/-- Result of the installer phase: the returned value, the final
filesystem state, the filesystem state after each attempted operation
(unchanged when the operation failed), and the operation trace. -/
structure InstallOut where
  res : Except String Unit
  fs : FS
  snaps : List FS
  ops : List IOp
deriving Repr

/-- Successful `fs::rename(exe_path, backup)`: the live file moves to the
backup path. -/
def mvLiveToBackup (fs : FS) : FS :=
  { live := none, backup := fs.live, newbin := fs.newbin }

/-- Successful `fs::rename(new_binary, exe_path)`: the scratch binary
moves to the live path. -/
def mvNewToLive (fs : FS) : FS :=
  { live := fs.newbin, backup := fs.backup, newbin := none }

/-- Successful rollback `fs::rename(backup, exe_path)`: the backup moves
back to the live path. -/
def mvBackupToLive (fs : FS) : FS :=
  { live := fs.backup, backup := none, newbin := fs.newbin }

/-- Tail of the installer after the second move succeeded
(upgrade.rs lines 85-92): set the executable permission (ignored result,
does not change modelled content), then best-effort delete the backup
(`let _ = fs::remove_file(&backup)`). -/
def installFinish (env : InstallEnv) (fs2 : FS) : InstallOut :=
  let fs3 := if env.removeBackupOk then { fs2 with backup := none } else fs2
  { res := .ok (), fs := fs3, snaps := [fs2, fs3],
    ops := [IOp.setPerm, IOp.rmBackup env.removeBackupOk] }

/-- Second phase of the installer (upgrade.rs lines 79-92), entered with
`fs1` the state after the live binary was moved to the backup path:
`fs::rename(new_binary, exe_path).or_else(|_| sudo_mv(..))`; on failure,
best-effort rollback `let _ = fs::rename(&backup, exe_path)` and return
the error with context `Failed to install new binary`. -/
def installStep2 (env : InstallEnv) (fs1 : FS) : InstallOut :=
  match env.rename2 with
  | none =>
    let out := installFinish env (mvNewToLive fs1)
    { out with snaps := mvNewToLive fs1 :: out.snaps, ops := IOp.rename2 true :: out.ops }
  | some _ =>
    if env.sudo2Ok then
      let out := installFinish env (mvNewToLive fs1)
      { out with
          snaps := fs1 :: mvNewToLive fs1 :: out.snaps
          ops := IOp.rename2 false :: IOp.sudo2 true :: out.ops }
    else
      if env.rollbackOk then
        { res := .error "Failed to install new binary", fs := mvBackupToLive fs1,
          snaps := [fs1, fs1, mvBackupToLive fs1],
          ops := [IOp.rename2 false, IOp.sudo2 false, IOp.rollback true] }
      else
        { res := .error "Failed to install new binary", fs := fs1,
          snaps := [fs1, fs1, fs1],
          ops := [IOp.rename2 false, IOp.sudo2 false, IOp.rollback false] }

/-- The installer phase of `execute` (upgrade.rs lines 75-92):
`fs::rename(exe_path, backup).or_else(|_| sudo_mv(..))` with context
`Failed to replace binary (try running with sudo)` on double failure,
then `installStep2`.  A failed move leaves the filesystem unchanged. -/
def installPhase (env : InstallEnv) (fs0 : FS) : InstallOut :=
  match env.rename1 with
  | none =>
    let out := installStep2 env (mvLiveToBackup fs0)
    { out with snaps := mvLiveToBackup fs0 :: out.snaps, ops := IOp.rename1 true :: out.ops }
  | some _ =>
    if env.sudo1Ok then
      let out := installStep2 env (mvLiveToBackup fs0)
      { out with
          snaps := fs0 :: mvLiveToBackup fs0 :: out.snaps
          ops := IOp.rename1 false :: IOp.sudo1 true :: out.ops }
    else
      { res := .error "Failed to replace binary (try running with sudo)", fs := fs0,
        snaps := [fs0, fs0], ops := [IOp.rename1 false, IOp.sudo1 false] }

/-- Outcome of an external command run through `Command::output()`:
the command may fail to start, exit with a non-success status, or
succeed with stdout text. -/
inductive CmdRes where
  | execFail : CmdRes
  | exitFail : CmdRes
  | ok : String → CmdRes
deriving DecidableEq, Repr

/-- Observable actions of a run of `execute`, in order. -/
inductive Act where
  | reportUpToDate : Act
  | mktempDir : Act
  | downloadTarball : Act
  | downloadChecksums : Act
  | extract : Act
  | inst : IOp → Act
  | removeTmpdir : Act
deriving DecidableEq, Repr

/-- Oracle environment for one run of `execute`: the compiled-in version,
the outcomes of every external call, and the initial contents of the
filesystem locations the installer touches. -/
structure ExecEnv where
  currentVersion : String
  latestTag : Except String String
  os : String
  arch : String
  exeOk : Bool
  mktempRes : CmdRes
  curlTarball : Option Bool
  curlChecksums : Option Bool
  checksumsText : Option String
  sha : ShaOutcome
  tarOk : Bool
  ienv : InstallEnv
  fs0 : FS
deriving Repr

/-- The release-archive filename `{BINARY}-{latest_tag}-{target}.tar.gz`
built at upgrade.rs line 35 and looked up in the checksum manifest. -/
def tarballName (latest_tag target : String) : String :=
  BINARY ++ "-" ++ latest_tag ++ "-" ++ target ++ ".tar.gz"

/-- Model of `execute` (upgrade.rs lines 10-97).  Returns the run's result
together with the trace of observable actions in order.  Each external
call reads its outcome from the environment; control flow, early returns
and error messages are translated from the source line by line. -/
def execute (env : ExecEnv) : Except String Unit × List Act :=
  match env.latestTag with
  | .error e => (.error e, [])
  | .ok latest_tag =>
    let latest_version := stripV latest_tag
    if latest_version = env.currentVersion then
      (.ok (), [Act.reportUpToDate])
    else
      match detect_target env.os env.arch with
      | .error e => (.error e, [])
      | .ok target =>
        if env.exeOk = false then
          (.error "Failed to determine current executable path", [])
        else
          match env.mktempRes with
          | .execFail => (.error "Failed to create temp directory", [])
          | .exitFail => (.error "mktemp failed", [])
          | .ok _tmpdir =>
            let tarball_name := tarballName latest_tag target
            let acts1 := [Act.mktempDir, Act.downloadTarball]
            match env.curlTarball with
            | none => (.error "Failed to run curl", acts1)
            | some false => (.error "Download failed (HTTP error)", acts1)
            | some true =>
              let acts2 := acts1 ++ [Act.downloadChecksums]
              match env.curlChecksums with
              | none => (.error "Failed to download checksums", acts2)
              | some false =>
                (.error "Failed to download checksums.txt — cannot verify integrity", acts2)
              | some true =>
                match verify_checksum env.checksumsText env.sha tarball_name with
                | .error e => (.error e, acts2)
                | .ok () =>
                  let acts3 := acts2 ++ [Act.extract]
                  if env.tarOk = false then
                    (.error "Failed to extract archive", acts3)
                  else
                    let iout := installPhase env.ienv env.fs0
                    match iout.res with
                    | .error e => (.error e, acts3 ++ iout.ops.map Act.inst)
                    | .ok () =>
                      (.ok (), acts3 ++ iout.ops.map Act.inst ++ [Act.removeTmpdir])

/-- State (a) of the InstallTransaction invariant: the live path holds the
pre-update executable and no backup exists. -/
def stateA (fs : FS) (orig : String) : Prop :=
  fs.live = some orig ∧ fs.backup = none

/-- State (b): the live path is absent and the backup path holds the
pre-update executable. -/
def stateB (fs : FS) (orig : String) : Prop :=
  fs.live = none ∧ fs.backup = some orig

/-- State (c): the live path holds the new executable and the backup has
been removed. -/
def stateC (fs : FS) (newc : String) : Prop :=
  fs.live = some newc ∧ fs.backup = none

/-- State (d), present in the code but absent from the spec invariant: the
live path already holds the new executable while the backup still holds
the pre-update executable (after the second move, before backup removal). -/
def stateD (fs : FS) (orig newc : String) : Prop :=
  fs.live = some newc ∧ fs.backup = some orig

instance (fs : FS) (orig : String) : Decidable (stateA fs orig) := by
  unfold stateA; exact inferInstance

instance (fs : FS) (orig : String) : Decidable (stateB fs orig) := by
  unfold stateB; exact inferInstance

instance (fs : FS) (newc : String) : Decidable (stateC fs newc) := by
  unfold stateC; exact inferInstance

instance (fs : FS) (orig newc : String) : Decidable (stateD fs orig newc) := by
  unfold stateD; exact inferInstance

/-! Theorems settling the claims. -/

/-- C6: for every (os, arch) input pair, platform resolution returns
exactly the documented triple for the four supported pairs and fails with
an unsupported-platform error naming the os and arch for every other
pair; `detect_target` is a pure function of its two arguments. -/
theorem detect_target_spec :
    detect_target "macos" "x86_64" = .ok "x86_64-apple-darwin" ∧
    detect_target "macos" "aarch64" = .ok "aarch64-apple-darwin" ∧
    detect_target "linux" "x86_64" = .ok "x86_64-unknown-linux-gnu" ∧
    detect_target "linux" "aarch64" = .ok "aarch64-unknown-linux-gnu" ∧
    ∀ os arch : String,
      ¬((os = "macos" ∧ arch = "x86_64") ∨ (os = "macos" ∧ arch = "aarch64") ∨
        (os = "linux" ∧ arch = "x86_64") ∨ (os = "linux" ∧ arch = "aarch64")) →
      detect_target os arch = .error ("Unsupported platform: " ++ os ++ "/" ++ arch) := by
  refine ⟨rfl, rfl, rfl, rfl, ?_⟩
  intro os arch h
  unfold detect_target
  split
  · exact absurd (Or.inl ⟨rfl, rfl⟩) h
  · exact absurd (Or.inr (Or.inl ⟨rfl, rfl⟩)) h
  · exact absurd (Or.inr (Or.inr (Or.inl ⟨rfl, rfl⟩))) h
  · exact absurd (Or.inr (Or.inr (Or.inr ⟨rfl, rfl⟩))) h
  · rfl

/-- Witness for C6 at the concrete unsupported pair (windows, x86_64). -/
theorem detect_target_spec_witness :
    detect_target "windows" "x86_64" = .error "Unsupported platform: windows/x86_64" :=
  detect_target_spec.2.2.2.2 "windows" "x86_64" (by decide)

/-- C2, counterexample: the hash comparison in `verify_checksum` is exact
string inequality, not case-insensitive.  A manifest hash recorded in
upper case does not match the same digest computed in lower case: the
two strings are equal after lowering, yet verification fails with a
checksum-mismatch error. -/
theorem verify_checksum_case_cex :
    verify_checksum (some "ABCD polymarket-cex.tar.gz") (.ran "abcd /tmp/t.tar.gz")
        "polymarket-cex.tar.gz" = .error (mismatchMsg "ABCD" "abcd") ∧
    ("ABCD" : String).data.map Char.toLower = ("abcd" : String).data.map Char.toLower := by
  exact ⟨rfl, by decide⟩

/-- C2, amended: with a manifest entry found for the expected filename and
the external hash command succeeding, `verify_checksum` succeeds exactly
when the first whitespace field of the hash command's output equals the
manifest hash as a string (case-sensitively), and fails with the
checksum-mismatch error exactly when the two strings differ. -/
theorem verify_checksum_mismatch_iff (manifest expected stdout h : String)
    (hfind : findExpectedHash manifest expected = some h) :
    (verify_checksum (some manifest) (.ran stdout) expected = .ok () ↔
      (split_whitespace stdout).headD "" = h) ∧
    (verify_checksum (some manifest) (.ran stdout) expected =
        .error (mismatchMsg h ((split_whitespace stdout).headD "")) ↔
      (split_whitespace stdout).headD "" ≠ h) := by
  simp only [verify_checksum, hfind]
  by_cases hc : (split_whitespace stdout).headD "" = h
  · simp [hc]
  · simp [hc]

/-- Witness for C2 at a concrete manifest, stdout and hash. -/
theorem verify_checksum_mismatch_iff_witness :
    (verify_checksum (some "abcd foo.tar.gz") (.ran "abcd /tmp/x") "foo.tar.gz" = .ok () ↔
      (split_whitespace "abcd /tmp/x").headD "" = "abcd") ∧
    (verify_checksum (some "abcd foo.tar.gz") (.ran "abcd /tmp/x") "foo.tar.gz" =
        .error (mismatchMsg "abcd" ((split_whitespace "abcd /tmp/x").headD "")) ↔
      (split_whitespace "abcd /tmp/x").headD "" ≠ "abcd") :=
  verify_checksum_mismatch_iff "abcd foo.tar.gz" "foo.tar.gz" "abcd /tmp/x" "abcd" (by decide)

/-- C9, counterexample: the elevated-privilege helper is attempted whenever
the direct move fails, whatever the error kind.  Here the first rename
fails with a not-found error (not a privilege failure), yet the sudo
helper is attempted. -/
theorem sudo_retry_any_error_cex :
    (⟨some MvErr.notFound, false, none, true, true, true⟩ : InstallEnv).rename1 =
      some MvErr.notFound ∧
    MvErr.notFound ≠ MvErr.permission ∧
    IOp.sudo1 false ∈
      (installPhase ⟨some MvErr.notFound, false, none, true, true, true⟩
        ⟨some "old", none, some "new"⟩).ops := by
  decide

/-- C9, amended: if the first move fails with any error kind, the elevated
helper is retried exactly once; if that retry also fails, the installer
aborts with the error suggesting an elevated re-run and the filesystem is
unchanged. -/
theorem sudo_retry_behavior (env : InstallEnv) (fs0 : FS) (k : MvErr)
    (h1 : env.rename1 = some k) (h2 : env.sudo1Ok = false) :
    (installPhase env fs0).res = .error "Failed to replace binary (try running with sudo)" ∧
    (installPhase env fs0).fs = fs0 ∧
    (installPhase env fs0).ops = [IOp.rename1 false, IOp.sudo1 false] := by
  unfold installPhase
  rw [h1, h2]
  exact ⟨rfl, rfl, rfl⟩

/-- Witness for C9 at a concrete environment whose first rename fails with
a permission error and whose sudo helper also fails. -/
theorem sudo_retry_behavior_witness :
    (installPhase ⟨some MvErr.permission, false, none, true, true, true⟩
        ⟨some "o", none, some "n"⟩).res =
      .error "Failed to replace binary (try running with sudo)" ∧
    (installPhase ⟨some MvErr.permission, false, none, true, true, true⟩
        ⟨some "o", none, some "n"⟩).fs = ⟨some "o", none, some "n"⟩ ∧
    (installPhase ⟨some MvErr.permission, false, none, true, true, true⟩
        ⟨some "o", none, some "n"⟩).ops = [IOp.rename1 false, IOp.sudo1 false] :=
  sudo_retry_behavior ⟨some MvErr.permission, false, none, true, true, true⟩
    ⟨some "o", none, some "n"⟩ MvErr.permission rfl rfl

/-- C3, counterexample: when the second move and the rollback both fail,
the live path is left empty (the original executable is not restored, the
backup remains), yet the error returned is the very same install-failure
error as when the rollback succeeds — there is no distinct rollback-failed
error and no manual-restore instruction. -/
theorem rollback_no_distinct_error_cex :
    (installPhase ⟨none, true, some MvErr.other, false, false, true⟩
        ⟨some "old", none, some "new"⟩).fs =
      ⟨none, some "old", some "new"⟩ ∧
    (installPhase ⟨none, true, some MvErr.other, false, false, true⟩
        ⟨some "old", none, some "new"⟩).res = .error "Failed to install new binary" ∧
    (installPhase ⟨none, true, some MvErr.other, false, true, true⟩
        ⟨some "old", none, some "new"⟩).res =
      (installPhase ⟨none, true, some MvErr.other, false, false, true⟩
        ⟨some "old", none, some "new"⟩).res := by
  decide

/-- C3, amended: if the second installer move fails (direct and elevated),
the installer attempts to move the backup back to the live path before
returning an install-failure error; when that rollback succeeds the live
path again holds the pre-update executable and no backup remains, and when
the rollback fails the failure is ignored and the very same install-failure
error is returned (no distinct rollback error). -/
theorem rollback_behavior (env : InstallEnv) (o n : String) (k : MvErr)
    (h1 : env.rename1 = none ∨ env.sudo1Ok = true)
    (h2 : env.rename2 = some k) (h3 : env.sudo2Ok = false) :
    (installPhase env ⟨some o, none, some n⟩).res = .error "Failed to install new binary" ∧
    IOp.rollback env.rollbackOk ∈ (installPhase env ⟨some o, none, some n⟩).ops ∧
    (env.rollbackOk = true →
      (installPhase env ⟨some o, none, some n⟩).fs =
        ⟨some o, none, some n⟩) ∧
    (env.rollbackOk = false →
      (installPhase env ⟨some o, none, some n⟩).fs =
        ⟨none, some o, some n⟩) := by
  rcases env with ⟨r1, s1, r2, s2, rb, rm⟩
  simp only at h2 h3
  subst h2; subst h3
  cases r1 with
  | none =>
    cases rb <;>
      simp [installPhase, installStep2, mvLiveToBackup, mvBackupToLive]
  | some k1 =>
    rcases h1 with h1 | h1
    · exact absurd h1 (by simp)
    · simp only at h1
      subst h1
      cases rb <;>
        simp [installPhase, installStep2, mvLiveToBackup, mvBackupToLive]

/-- Witness for C3 at a concrete environment where the second move fails
and the rollback succeeds. -/
theorem rollback_behavior_witness :
    (installPhase ⟨none, true, some MvErr.permission, false, true, true⟩
        ⟨some "old", none, some "new"⟩).res = .error "Failed to install new binary" ∧
    IOp.rollback true ∈
      (installPhase ⟨none, true, some MvErr.permission, false, true, true⟩
        ⟨some "old", none, some "new"⟩).ops ∧
    (true = true →
      (installPhase ⟨none, true, some MvErr.permission, false, true, true⟩
        ⟨some "old", none, some "new"⟩).fs = ⟨some "old", none, some "new"⟩) ∧
    (false = true →
      (installPhase ⟨none, true, some MvErr.permission, false, true, true⟩
        ⟨some "old", none, some "new"⟩).fs = ⟨none, some "old", some "new"⟩) := by
  have h := rollback_behavior ⟨none, true, some MvErr.permission, false, true, true⟩
    "old" "new" MvErr.permission (Or.inl rfl) rfl rfl
  exact ⟨h.1, h.2.1, fun _ => h.2.2.1 rfl, fun hf => absurd hf (by decide)⟩

/-- C5, counterexample: immediately after the second move succeeds and
before the backup is deleted, the live path holds the new executable while
the backup still holds the pre-update executable — a reachable observable
state satisfying none of the three states of the claimed invariant. -/
theorem install_fourth_state_cex :
    (⟨some "new", some "old", none⟩ : FS) ∈
      (installPhase ⟨none, true, none, true, true, true⟩
        ⟨some "old", none, some "new"⟩).snaps ∧
    ¬ stateA ⟨some "new", some "old", none⟩ "old" ∧
    ¬ stateB ⟨some "new", some "old", none⟩ "old" ∧
    ¬ stateC ⟨some "new", some "old", none⟩ "new" := by
  decide

/-- C5, amended: starting from a live executable and no backup, every
observable state of the installer phase satisfies one of FOUR states: the
three claimed ones, or (d) the live path holds the new executable while
the backup still holds the pre-update one (post-replace, pre-cleanup); and
state (b) never holds at the final state of a normally-returning run. -/
theorem install_states_invariant (env : InstallEnv) (o n : String) :
    (∀ s ∈ (installPhase env ⟨some o, none, some n⟩).snaps,
      stateA s o ∨ stateB s o ∨ stateC s n ∨ stateD s o n) ∧
    ((installPhase env ⟨some o, none, some n⟩).res = .ok () →
      ¬ stateB (installPhase env ⟨some o, none, some n⟩).fs o) := by
  rcases env with ⟨r1, s1, r2, s2, rb, rm⟩
  cases r1 <;> cases s1 <;> cases r2 <;> cases s2 <;> cases rb <;> cases rm <;>
    simp [installPhase, installStep2, installFinish, mvLiveToBackup, mvNewToLive,
      mvBackupToLive, stateA, stateB, stateC, stateD]

/-- Witness for C5 at a concrete all-success environment: the state after
the first move is state (b), and the final state of the normal return is
not state (b). -/
theorem install_states_invariant_witness :
    (stateA ⟨none, some "old", some "new"⟩ "old" ∨
      stateB ⟨none, some "old", some "new"⟩ "old" ∨
      stateC ⟨none, some "old", some "new"⟩ "new" ∨
      stateD ⟨none, some "old", some "new"⟩ "old" "new") ∧
    ¬ stateB (installPhase ⟨none, true, none, true, true, true⟩
        ⟨some "old", none, some "new"⟩).fs "old" :=
  ⟨(install_states_invariant ⟨none, true, none, true, true, true⟩ "old" "new").1
      ⟨none, some "old", some "new"⟩ (by decide),
   (install_states_invariant ⟨none, true, none, true, true, true⟩ "old" "new").2 rfl⟩

/-- A manifest line yields a hash in the lookup closure exactly when it
has at least two whitespace-separated fields, the returned hash is the
first field, and the second field equals the expected name exactly or
after stripping leading relative markers. -/
theorem lineMatch_some_iff (expected l h : String) :
    lineMatch expected l = some h ↔
    ∃ name rest, split_whitespace l = h :: name :: rest ∧
      (name = expected ∨ stripDotSlash name = expected) := by
  unfold lineMatch
  cases hs : split_whitespace l with
  | nil => simp
  | cons x xs =>
    cases xs with
    | nil => simp
    | cons y ys =>
      by_cases hm : y = expected ∨ stripDotSlash y = expected
      · simp only [if_pos hm, Option.some.injEq, List.cons.injEq]
        constructor
        · rintro rfl
          exact ⟨y, ys, ⟨rfl, rfl, rfl⟩, hm⟩
        · rintro ⟨name, rest, ⟨rfl, rfl, rfl⟩, _⟩
          rfl
      · simp only [if_neg hm, List.cons.injEq]
        constructor
        · rintro ⟨⟩
        · rintro ⟨name, rest, ⟨rfl, rfl, rfl⟩, hp⟩
          exact absurd hp hm

/-- The first-some search over a list of lines yields a value exactly when
some line yields a value. -/
theorem findSome?_lineMatch_isSome (expected : String) (ls : List String) :
    (∃ h, ls.findSome? (lineMatch expected) = some h) ↔
    ∃ l ∈ ls, ∃ h, lineMatch expected l = some h := by
  induction ls with
  | nil => simp [List.findSome?]
  | cons a as ih =>
    cases hm : lineMatch expected a with
    | some h =>
      simp only [List.findSome?, hm]
      constructor
      · intro _
        exact ⟨a, by simp, h, hm⟩
      · intro _
        exact ⟨h, rfl⟩
    | none =>
      simp only [List.findSome?, hm, List.mem_cons]
      rw [ih]
      constructor
      · rintro ⟨l, hl, hsome⟩
        exact ⟨l, Or.inr hl, hsome⟩
      · rintro ⟨l, hl | hl, hsome⟩
        · subst hl
          rcases hsome with ⟨h, hsome⟩
          rw [hm] at hsome
          exact absurd hsome (by simp)
        · exact ⟨l, hl, hsome⟩

/-- C8: the manifest lookup parses one whitespace-separated (hash,
filename) record per line and succeeds exactly when some record's filename
equals the expected filename exactly or after stripping a leading relative
marker; when no record matches — the empty manifest included — verification
fails with the missing-manifest-entry error, whose text names the expected
filename. -/
theorem manifest_lookup_spec (manifest expected : String) :
    ((∃ h, findExpectedHash manifest expected = some h) ↔
      (∃ line ∈ rustLines manifest, ∃ hash name rest,
        split_whitespace line = hash :: name :: rest ∧
        (name = expected ∨ stripDotSlash name = expected))) ∧
    (findExpectedHash manifest expected = none →
      ∀ sha, verify_checksum (some manifest) sha expected = .error (missingMsg expected)) ∧
    (∃ p q, missingMsg expected = p ++ expected ++ q) := by
  refine ⟨?_, ?_, ?_⟩
  · unfold findExpectedHash
    rw [findSome?_lineMatch_isSome]
    simp only [lineMatch_some_iff]
  · intro hnone sha
    simp [verify_checksum, hnone]
  · exact ⟨"No checksum found for ", " in checksums.txt", rfl⟩

/-- Witness for C8 at the empty manifest: lookup fails and verification
returns the missing-entry error naming the expected filename. -/
theorem manifest_lookup_spec_witness :
    verify_checksum (some "") ShaOutcome.runFailed "foo.tar.gz" =
      .error (missingMsg "foo.tar.gz") :=
  (manifest_lookup_spec "" "foo.tar.gz").2.1 (by decide) ShaOutcome.runFailed

/-- The first-some search skips a prefix of lines that all yield none. -/
theorem findSome?_append_none {α β : Type} (f : α → Option β) (pre rest : List α)
    (hpre : ∀ l ∈ pre, f l = none) :
    (pre ++ rest).findSome? f = rest.findSome? f := by
  induction pre with
  | nil => rfl
  | cons a as ih =>
    have ha : f a = none := hpre a (by simp)
    simp only [List.cons_append, List.findSome?, ha]
    exact ih (fun l hl => hpre l (by simp [hl]))

/-- C10: the manifest lookup silently skips every line with fewer than two
whitespace-separated fields, and when several lines match the expected
filename the hash returned is that of the earliest matching line. -/
theorem manifest_skip_and_first_match (expected : String) :
    (∀ line, (split_whitespace line).length < 2 → lineMatch expected line = none) ∧
    (∀ manifest pre line post h,
      rustLines manifest = pre ++ line :: post →
      (∀ l ∈ pre, lineMatch expected l = none) →
      lineMatch expected line = some h →
      findExpectedHash manifest expected = some h) := by
  constructor
  · intro line hlen
    unfold lineMatch
    cases hs : split_whitespace line with
    | nil => rfl
    | cons x xs =>
      cases xs with
      | nil => rfl
      | cons y ys =>
        rw [hs] at hlen
        simp at hlen
        omega
  · intro manifest pre line post h hml hpre hline
    unfold findExpectedHash
    rw [hml, findSome?_append_none _ pre _ hpre]
    simp only [List.findSome?, hline]

/-- Witness for C10: a blank line and a one-field line are skipped without
error, and of the two matching lines the earliest one's hash is returned. -/
theorem manifest_skip_and_first_match_witness :
    lineMatch "foo" "" = none ∧
    findExpectedHash "\nonly1field\nh1 foo\nh2 foo" "foo" = some "h1" :=
  ⟨(manifest_skip_and_first_match "foo").1 "" (by decide),
   (manifest_skip_and_first_match "foo").2 "\nonly1field\nh1 foo\nh2 foo"
     ["", "only1field"] "h1 foo" ["h2 foo"] "h1" (by decide) (by decide) (by decide)⟩

/-- C7: with the latest-tag request succeeding, the freshness test is
string equality between the compiled-in current version and the tag with
its leading v-marker stripped: on equality the run reports already up to
date and performs nothing else (no download, no filesystem action), and on
any inequality — a downgrade included — the run does not report up to date
and, when the platform is supported, the executable path is known and the
scratch directory is created, it proceeds to download the artifact. -/
theorem freshness_equality_spec (env : ExecEnv) (tag : String)
    (htag : env.latestTag = .ok tag) :
    ((stripV tag = env.currentVersion) →
      execute env = (.ok (), [Act.reportUpToDate])) ∧
    ((stripV tag ≠ env.currentVersion) →
      Act.reportUpToDate ∉ (execute env).2 ∧
      (∀ target s, detect_target env.os env.arch = .ok target →
        env.exeOk = true → env.mktempRes = .ok s →
        Act.downloadTarball ∈ (execute env).2)) := by
  rcases env with ⟨cv, lt, os, arch, exeOk, mk, c1, c2, ct, sha, tar, ienv, fs0⟩
  simp only at htag
  subst htag
  constructor
  · intro heq
    simp [execute, heq]
  · intro hne
    constructor
    · simp only [execute, if_neg hne]
      repeat' split
      all_goals simp
    · intro target s htgt hexe hmk
      simp only at hexe hmk
      subst hexe
      subst hmk
      simp only [execute, if_neg hne, htgt]
      repeat' split
      all_goals simp_all

/-- Witness for C7: a run whose tag equals the current version after
stripping reports up to date and does nothing else, and a run with a
different tag proceeds to the artifact download. -/
theorem freshness_equality_spec_witness :
    execute ⟨"1.0.0", .ok "v1.0.0", "linux", "x86_64", true, .ok "/tmp/t",
        some true, some true, some "", .runFailed, true,
        ⟨none, true, none, true, true, true⟩, ⟨some "o", none, some "n"⟩⟩ =
      (.ok (), [Act.reportUpToDate]) ∧
    Act.downloadTarball ∈
      (execute ⟨"1.0.0", .ok "v1.1.0", "linux", "x86_64", true, .ok "/tmp/t",
        some true, some true, some "", .runFailed, true,
        ⟨none, true, none, true, true, true⟩, ⟨some "o", none, some "n"⟩⟩).2 :=
  ⟨(freshness_equality_spec ⟨"1.0.0", .ok "v1.0.0", "linux", "x86_64", true, .ok "/tmp/t",
        some true, some true, some "", .runFailed, true,
        ⟨none, true, none, true, true, true⟩, ⟨some "o", none, some "n"⟩⟩
      "v1.0.0" rfl).1 (by decide),
   ((freshness_equality_spec ⟨"1.0.0", .ok "v1.1.0", "linux", "x86_64", true, .ok "/tmp/t",
        some true, some true, some "", .runFailed, true,
        ⟨none, true, none, true, true, true⟩, ⟨some "o", none, some "n"⟩⟩
      "v1.1.0" rfl).2 (by decide)).2 "x86_64-unknown-linux-gnu" "/tmp/t" rfl rfl rfl⟩

/-- C1: the integrity check is a hard gate.  Whenever checksum
verification fails — a missing manifest entry or a digest mismatch alike —
the run performs no extraction and no installer operation (the live
executable path is never touched), and the digest-mismatch message
explicitly warns that the artifact may have been tampered with. -/
theorem checksum_gate (env : ExecEnv) (tag target msg : String)
    (htag : env.latestTag = .ok tag)
    (htgt : detect_target env.os env.arch = .ok target)
    (hv : verify_checksum env.checksumsText env.sha (tarballName tag target) = .error msg) :
    (Act.extract ∉ (execute env).2 ∧ ∀ op, Act.inst op ∉ (execute env).2) ∧
    (∀ e a, msg = mismatchMsg e a →
      ∃ p q, msg = p ++ "may have been tampered with" ++ q) := by
  constructor
  · rcases env with ⟨cv, lt, os, arch, exeOk, mk, c1, c2, ct, sha, tar, ienv, fs0⟩
    simp only at htag htgt hv
    subst htag
    by_cases heq : stripV tag = cv
    · simp [execute, heq]
    · simp only [execute, if_neg heq, htgt]
      repeat' split
      all_goals simp_all
  · intro e a hm
    refine ⟨"Checksum mismatch!\n  Expected: " ++ e ++ "\n  Got:      " ++ a ++
      "\n\nThe downloaded binary ", ". Aborting.", ?_⟩
    rw [hm]
    unfold mismatchMsg
    simp only [String.append_assoc]
    rfl

/-- Witness for C1 at a concrete run whose downloaded archive digest does
not match the manifest entry. -/
theorem checksum_gate_witness :
    (Act.extract ∉
        (execute ⟨"1.0.0", .ok "v1.1.0", "linux", "x86_64", true, .ok "/tmp/t",
          some true, some true,
          some "aaaa polymarket-v1.1.0-x86_64-unknown-linux-gnu.tar.gz",
          .ran "bbbb /tmp/t/polymarket.tar.gz", true,
          ⟨none, true, none, true, true, true⟩, ⟨some "o", none, some "n"⟩⟩).2 ∧
      ∀ op, Act.inst op ∉
        (execute ⟨"1.0.0", .ok "v1.1.0", "linux", "x86_64", true, .ok "/tmp/t",
          some true, some true,
          some "aaaa polymarket-v1.1.0-x86_64-unknown-linux-gnu.tar.gz",
          .ran "bbbb /tmp/t/polymarket.tar.gz", true,
          ⟨none, true, none, true, true, true⟩, ⟨some "o", none, some "n"⟩⟩).2) ∧
    (∀ e a, mismatchMsg "aaaa" "bbbb" = mismatchMsg e a →
      ∃ p q, mismatchMsg "aaaa" "bbbb" = p ++ "may have been tampered with" ++ q) :=
  checksum_gate ⟨"1.0.0", .ok "v1.1.0", "linux", "x86_64", true, .ok "/tmp/t",
      some true, some true,
      some "aaaa polymarket-v1.1.0-x86_64-unknown-linux-gnu.tar.gz",
      .ran "bbbb /tmp/t/polymarket.tar.gz", true,
      ⟨none, true, none, true, true, true⟩, ⟨some "o", none, some "n"⟩⟩
    "v1.1.0" "x86_64-unknown-linux-gnu" (mismatchMsg "aaaa" "bbbb") rfl rfl (by decide)

/-- C4, counterexample: a run that created the scratch directory and then
aborted at checksum verification does not remove the scratch directory —
no removal action appears in its trace. -/
theorem scratch_leak_cex :
    (execute ⟨"1.0.0", .ok "v1.1.0", "linux", "aarch64", true, .ok "/tmp/t",
        some true, some true,
        some "aaaa polymarket-v1.1.0-aarch64-unknown-linux-gnu.tar.gz",
        .ran "bbbb /tmp/t/polymarket.tar.gz", true,
        ⟨none, true, none, true, true, true⟩, ⟨some "o", none, some "n"⟩⟩).1 =
      .error (mismatchMsg "aaaa" "bbbb") ∧
    Act.mktempDir ∈
      (execute ⟨"1.0.0", .ok "v1.1.0", "linux", "aarch64", true, .ok "/tmp/t",
        some true, some true,
        some "aaaa polymarket-v1.1.0-aarch64-unknown-linux-gnu.tar.gz",
        .ran "bbbb /tmp/t/polymarket.tar.gz", true,
        ⟨none, true, none, true, true, true⟩, ⟨some "o", none, some "n"⟩⟩).2 ∧
    Act.removeTmpdir ∉
      (execute ⟨"1.0.0", .ok "v1.1.0", "linux", "aarch64", true, .ok "/tmp/t",
        some true, some true,
        some "aaaa polymarket-v1.1.0-aarch64-unknown-linux-gnu.tar.gz",
        .ran "bbbb /tmp/t/polymarket.tar.gz", true,
        ⟨none, true, none, true, true, true⟩, ⟨some "o", none, some "n"⟩⟩).2 := by
  decide

/-- C4, amended: the scratch directory is removed exactly on the
successful-update exit path — a run attempts the removal if and only if it
returns success after having created the scratch directory; every failure
exit after the creation leaves the directory in place. -/
theorem scratch_removed_iff_success (env : ExecEnv) :
    Act.removeTmpdir ∈ (execute env).2 ↔
      ((execute env).1 = .ok () ∧ Act.mktempDir ∈ (execute env).2) := by
  rcases env with ⟨cv, lt, os, arch, exeOk, mk, c1, c2, ct, sha, tar, ienv, fs0⟩
  cases lt with
  | error e => simp [execute]
  | ok tag =>
    by_cases heq : stripV tag = cv
    · simp [execute, heq]
    · cases htgt : detect_target os arch with
      | error e => simp [execute, heq, htgt]
      | ok t =>
        simp only [execute, if_neg heq, htgt]
        repeat' split
        all_goals simp_all

end Upgrade
